import Mathlib

/-!
Verification of the FirmeAPI Node.js client (firmeapi-node).

Shallow embedding of the client's behavioral core: configuration and
construction, CUI normalization, search-query construction, header
construction, the request execution primitive with its catch clause, and
HTTP-status error classification, together with theorems settling the
specification's claims about them.

The embedding mirrors `src/client.ts` (class FirmeApi) and
`src/errors.ts` (the error class hierarchy).  JavaScript runtime values
read off untrusted JSON are modelled by `JsonVal`; absent object fields
are modelled by `Option`.
-/

/-- A JavaScript runtime value as read off a decoded JSON error payload.
Only the shapes the client can observe matter here. -/
inductive JsonVal where
  | jnull
  | jnum (n : Int)
  | jstr (s : String)
  | jbool (b : Bool)
deriving DecidableEq, Repr

/-- JavaScript nullish coalescing `v ?? d`: the default applies exactly when
the value is absent (`undefined`) or `null`; any other value passes through. -/
def coalesce (v : Option JsonVal) (d : JsonVal) : JsonVal :=
  match v with
  | none => d
  | some .jnull => d
  | some x => x

/-- JavaScript string-or `a || d` as used on string-typed fields: the
fallback applies when the field is absent (`undefined`) or the empty string
(both falsy); a non-empty string passes through. -/
def jsOr (v : Option String) (d : String) : String :=
  match v with
  | none => d
  | some s => if s = "" then d else s

/-- The decoded response body, restricted to the fields the client ever
reads: `message`/`error`/`code` and the snake_case numeric extras consulted
by `handleErrorResponse`, plus the success payload field `data` extracted by
the catalog methods.  The client never reads the `success` or `sandbox`
fields, so they are not modelled. -/
structure ErrorEnvelope where
  message : Option String
  error : Option String
  code : Option String
  available_credits : Option JsonVal
  required_credits : Option JsonVal
  retry_after : Option JsonVal
  current_usage : Option JsonVal
  limit : Option JsonVal
  data : Option JsonVal
deriving DecidableEq, Repr

/-- The typed failure hierarchy of `src/errors.ts`, one constructor per
error class.  `RateLimitError` and `InsufficientCreditsError` carry their
extra fields as `JsonVal` because the untyped source can store any runtime
value there via `??`. -/
inductive FirmeApiError where
  | authenticationError (message code : String)
  | notFoundError (message code : String)
  | rateLimitError (message code : String) (retryAfter currentUsage limit : JsonVal)
  | insufficientCreditsError (message code : String)
      (availableCredits requiredCredits : JsonVal)
  | validationError (message code : String)
  | apiError (message code : String) (statusCode : Nat)
  | networkError (message : String)
  | timeoutError (message : String)
deriving DecidableEq, Repr

/-- The eight failure kinds of the taxonomy. -/
inductive FailureKind where
  | authentication
  | notFound
  | rateLimit
  | insufficientCredits
  | validation
  | api
  | network
  | timeout
deriving DecidableEq, Repr

/-- Which error class a failure value belongs to. -/
def FirmeApiError.kind : FirmeApiError → FailureKind
  | .authenticationError _ _ => .authentication
  | .notFoundError _ _ => .notFound
  | .rateLimitError _ _ _ _ _ => .rateLimit
  | .insufficientCreditsError _ _ _ _ => .insufficientCredits
  | .validationError _ _ => .validation
  | .apiError _ _ _ => .api
  | .networkError _ => .network
  | .timeoutError _ => .timeout

/-- The `message` property every error class carries. -/
def FirmeApiError.messageOf : FirmeApiError → String
  | .authenticationError m _ => m
  | .notFoundError m _ => m
  | .rateLimitError m _ _ _ _ => m
  | .insufficientCreditsError m _ _ _ => m
  | .validationError m _ => m
  | .apiError m _ _ => m
  | .networkError m => m
  | .timeoutError m => m

/-- The `code` property every error class carries; `NetworkError` and
`TimeoutError` hard-code their codes in `src/errors.ts`. -/
def FirmeApiError.codeOf : FirmeApiError → String
  | .authenticationError _ c => c
  | .notFoundError _ c => c
  | .rateLimitError _ c _ _ _ => c
  | .insufficientCreditsError _ c _ _ => c
  | .validationError _ c => c
  | .apiError _ c _ => c
  | .networkError _ => "NETWORK_ERROR"
  | .timeoutError _ => "TIMEOUT"

/-- The `statusCode` property set by each error class constructor in
`src/errors.ts`. -/
def FirmeApiError.statusCodeOf : FirmeApiError → Nat
  | .authenticationError _ _ => 401
  | .notFoundError _ _ => 404
  | .rateLimitError _ _ _ _ _ => 429
  | .insufficientCreditsError _ _ _ _ => 403
  | .validationError _ _ => 400
  | .apiError _ _ s => s
  | .networkError _ => 0
  | .timeoutError _ => 0

/-- The `retryAfter` field, defined only on `RateLimitError`. -/
def FirmeApiError.retryAfterField : FirmeApiError → Option JsonVal
  | .rateLimitError _ _ r _ _ => some r
  | _ => none

/-- The `currentUsage` field, defined only on `RateLimitError`. -/
def FirmeApiError.currentUsageField : FirmeApiError → Option JsonVal
  | .rateLimitError _ _ _ u _ => some u
  | _ => none

/-- The `limit` field, defined only on `RateLimitError`. -/
def FirmeApiError.limitField : FirmeApiError → Option JsonVal
  | .rateLimitError _ _ _ _ l => some l
  | _ => none

/-- The `availableCredits` field, defined only on `InsufficientCreditsError`. -/
def FirmeApiError.availableCreditsField : FirmeApiError → Option JsonVal
  | .insufficientCreditsError _ _ a _ => some a
  | _ => none

/-- The `requiredCredits` field, defined only on `InsufficientCreditsError`. -/
def FirmeApiError.requiredCreditsField : FirmeApiError → Option JsonVal
  | .insufficientCreditsError _ _ _ r => some r
  | _ => none

/-- `const message = data.message || data.error || 'Unknown error'` from
`handleErrorResponse`. -/
def resolvedMessage (data : ErrorEnvelope) : String :=
  jsOr data.message (jsOr data.error "Unknown error")

/-- `const code = data.code || 'UNKNOWN_ERROR'` from `handleErrorResponse`. -/
def resolvedCode (data : ErrorEnvelope) : String :=
  jsOr data.code "UNKNOWN_ERROR"

/-- `FirmeApi.handleErrorResponse`: classify a non-ok HTTP exchange into the
typed failure it throws.  The `switch` on the status code becomes a chain of
equality tests in the source's case order. -/
def handleErrorResponse (statusCode : Nat) (data : ErrorEnvelope) : FirmeApiError :=
  if statusCode = 401 then
    .authenticationError (resolvedMessage data) (resolvedCode data)
  else if statusCode = 403 then
    if resolvedCode data = "CREDITS_EXHAUSTED" ∨ resolvedCode data = "MOF_INSUFFICIENT_CREDITS" then
      .insufficientCreditsError (resolvedMessage data) (resolvedCode data)
        (coalesce data.available_credits (.jnum 0))
        (coalesce data.required_credits (.jnum 1))
    else
      .authenticationError (resolvedMessage data) (resolvedCode data)
  else if statusCode = 404 then
    .notFoundError (resolvedMessage data) (resolvedCode data)
  else if statusCode = 429 then
    .rateLimitError (resolvedMessage data) (resolvedCode data)
      (coalesce data.retry_after (.jnum 1))
      (coalesce data.current_usage (.jnum 0))
      (coalesce data.limit (.jnum 0))
  else if statusCode = 400 then
    .validationError (resolvedMessage data) (resolvedCode data)
  else
    .apiError (resolvedMessage data) (resolvedCode data) statusCode

/-- The specification's status-classification table, transcribed from the
spec's own words: status is the sole dispatch key, with a sub-dispatch on
the machine code only at 403.  Used to compare the code's classifier
against the spec. -/
def specStatusKind (status : Nat) (code : String) : FailureKind :=
  if status = 401 then .authentication
  else if status = 403 then
    if code = "CREDITS_EXHAUSTED" ∨ code = "MOF_INSUFFICIENT_CREDITS" then
      .insufficientCredits
    else
      .authentication
  else if status = 404 then .notFound
  else if status = 429 then .rateLimit
  else if status = 400 then .validation
  else .api

/-- C1: for every non-2xx status and decoded error envelope, classification
yields exactly the kind given by the spec's table (status is the sole
dispatch key, machine code consulted only at 403); a generic Api failure
carries the original status code; and the credit and rate-limit extras take
their stated defaults (0, 1 and 1, 0, 0 respectively) when absent. -/
theorem c1_status_dispatch (status : Nat) (data : ErrorEnvelope)
    (h : status < 200 ∨ 300 ≤ status) :
    (handleErrorResponse status data).kind = specStatusKind status (resolvedCode data) ∧
    (specStatusKind status (resolvedCode data) = .api →
      (handleErrorResponse status data).statusCodeOf = status) ∧
    (status = 403 →
      (resolvedCode data = "CREDITS_EXHAUSTED" ∨ resolvedCode data = "MOF_INSUFFICIENT_CREDITS") →
      ((data.available_credits = none →
        (handleErrorResponse status data).availableCreditsField = some (.jnum 0)) ∧
       (data.required_credits = none →
        (handleErrorResponse status data).requiredCreditsField = some (.jnum 1)))) ∧
    (status = 429 →
      ((data.retry_after = none →
        (handleErrorResponse status data).retryAfterField = some (.jnum 1)) ∧
       (data.current_usage = none →
        (handleErrorResponse status data).currentUsageField = some (.jnum 0)) ∧
       (data.limit = none →
        (handleErrorResponse status data).limitField = some (.jnum 0)))) := by
  refine ⟨?_, ?_, ?_, ?_⟩
  · unfold handleErrorResponse specStatusKind
    split_ifs <;> rfl
  · unfold handleErrorResponse specStatusKind
    split_ifs <;> intro hk <;> first
      | rfl
      | exact absurd hk (by decide)
  · intro h403 hcode
    subst h403
    constructor
    · intro ha
      simp [handleErrorResponse, hcode, ha, coalesce, FirmeApiError.availableCreditsField]
    · intro hr
      simp [handleErrorResponse, hcode, hr, coalesce, FirmeApiError.requiredCreditsField]
  · intro h429
    subst h429
    refine ⟨?_, ?_, ?_⟩
    · intro ha
      simp [handleErrorResponse, ha, coalesce, FirmeApiError.retryAfterField]
    · intro ha
      simp [handleErrorResponse, ha, coalesce, FirmeApiError.currentUsageField]
    · intro ha
      simp [handleErrorResponse, ha, coalesce, FirmeApiError.limitField]

/-- Witness for C1 at status 500 with an empty envelope: the classifier
lands in the generic Api bucket as the spec's table predicts. -/
theorem c1_status_dispatch_witness :
    (handleErrorResponse 500 (ErrorEnvelope.mk none none none none none none none none none)).kind =
      specStatusKind 500 (resolvedCode (ErrorEnvelope.mk none none none none none none none none none)) :=
  (c1_status_dispatch 500 (ErrorEnvelope.mk none none none none none none none none none)
    (Or.inr (by decide))).1

/-- Default base URL constant from `src/client.ts`. -/
def DEFAULT_BASE_URL : String := "https://www.firmeapi.ro/api"

/-- Default timeout constant (milliseconds) from `src/client.ts`. -/
def DEFAULT_TIMEOUT : Nat := 30000

/-- `FirmeApiConfig` as supplied by the caller at runtime; every field may
be absent (`undefined`). -/
structure FirmeApiConfig where
  apiKey : Option String
  sandbox : Option Bool
  baseUrl : Option String
  timeout : Option Nat
deriving DecidableEq, Repr

/-- A constructed client instance: the four private readonly fields of
class `FirmeApi`. -/
structure FirmeApi where
  apiKey : String
  sandbox : Bool
  baseUrl : String
  timeout : Nat
deriving DecidableEq, Repr

/-- The `FirmeApi` constructor: `!config.apiKey` rejects an absent or empty
(falsy) credential with a Validation failure before the instance exists;
otherwise the `??` defaults fill the remaining fields. -/
def mkFirmeApi (config : FirmeApiConfig) : Except FirmeApiError FirmeApi :=
  match config.apiKey with
  | none => .error (.validationError "API key is required" "MISSING_API_KEY")
  | some key =>
    if key = "" then
      .error (.validationError "API key is required" "MISSING_API_KEY")
    else
      .ok
        { apiKey := key
          sandbox := config.sandbox.getD false
          baseUrl := config.baseUrl.getD DEFAULT_BASE_URL
          timeout := config.timeout.getD DEFAULT_TIMEOUT }

/-- `FirmeApi.cleanCui`: strip every non-digit character
(`cui.replace(/[^0-9]/g, '')`), then require 2..10 digits, raising a
Validation failure with code INVALID_CUI_FORMAT otherwise. -/
def cleanCui (cui : String) : Except FirmeApiError String :=
  let cleaned := String.mk (cui.data.filter Char.isDigit)
  if cleaned.length < 2 ∨ cleaned.length > 10 then
    .error (.validationError "CUI must contain between 2 and 10 digits" "INVALID_CUI_FORMAT")
  else
    .ok cleaned

/-- The endpoint and tier flag a catalog method hands to
`FirmeApi.request`. -/
structure RequestTarget where
  endpoint : String
  isFreeApi : Bool
deriving DecidableEq, Repr

/-- The header object built inside `FirmeApi.request`: the three literal
headers, the always-added X-API-KEY, and X-Sandbox exactly when sandbox
mode is on and the call is not free-tier. -/
def buildHeaders (client : FirmeApi) (isFreeApi : Bool) : List (String × String) :=
  let headers := [("Content-Type", "application/json"),
                  ("Accept", "application/json"),
                  ("User-Agent", "firmeapi-node/1.0.0"),
                  ("X-API-KEY", client.apiKey)]
  if client.sandbox && !isFreeApi then
    headers ++ [("X-Sandbox", "true")]
  else
    headers

/-- A JavaScript exception value as seen by the catch clause: either an
`Error` instance (with its `name` and `message`) or a thrown non-Error
value. -/
inductive ThrownValue where
  | jsError (name message : String)
  | nonError
deriving DecidableEq, Repr

/-- The outcome of `fetch` followed by `response.json()`: either the fetch
promise rejected, or a response arrived with a status and a body that
parsed to an envelope or made the parse step throw. -/
inductive FetchResult where
  | response (status : Nat) (body : Except ThrownValue ErrorEnvelope)
  | rejected (e : ThrownValue)

/-- What the try block can throw: a typed failure raised by
`handleErrorResponse`, or a JavaScript error from fetch or the parse step. -/
inductive Thrown where
  | typed (e : FirmeApiError)
  | js (v : ThrownValue)
deriving DecidableEq, Repr

/-- `Response.ok` of the fetch API: status in 200..299. -/
def responseOk (status : Nat) : Bool :=
  200 ≤ status && status ≤ 299

/-- The try block of `FirmeApi.request` after the response arrived: a parse
failure propagates as the thrown JavaScript error; a non-ok status throws
the typed failure from `handleErrorResponse`; otherwise the decoded body is
returned. -/
def requestTry (status : Nat) (body : Except ThrownValue ErrorEnvelope) :
    Except Thrown ErrorEnvelope :=
  match body with
  | .error e => .error (.js e)
  | .ok data =>
    if !(responseOk status) then
      .error (.typed (handleErrorResponse status data))
    else
      .ok data

/-- The catch clause of `FirmeApi.request`: a `FirmeApiError` is rethrown
unchanged; an `Error` named AbortError becomes a Timeout failure; any other
`Error` becomes a Network failure carrying its message; a thrown non-Error
becomes a generic Network failure. -/
def catchClause (timeout : Nat) (e : Thrown) : FirmeApiError :=
  match e with
  | .typed err => err
  | .js (.jsError name msg) =>
    if name = "AbortError" then
      .timeoutError ("Request timed out after " ++ toString timeout ++ "ms")
    else
      .networkError msg
  | .js .nonError => .networkError "An unknown error occurred"

/-- `FirmeApi.request`: build the URL and headers, consult the transport
(modelled as a function from URL and headers to a `FetchResult`), and feed
everything thrown by the try block through the catch clause. -/
def request (client : FirmeApi) (target : RequestTarget)
    (fetchEnv : String → List (String × String) → FetchResult) :
    Except FirmeApiError ErrorEnvelope :=
  match fetchEnv (client.baseUrl ++ target.endpoint) (buildHeaders client target.isFreeApi) with
  | .rejected e => .error (catchClause client.timeout (.js e))
  | .response status body =>
    match requestTry status body with
    | .error t => .error (catchClause client.timeout t)
    | .ok value => .ok value

/-- `FirmeApi.getCompany`: normalize the CUI, then GET `/v1/firma/{cui}` on
the standard tier and extract `response.data`. -/
def getCompany (client : FirmeApi) (cui : String)
    (fetchEnv : String → List (String × String) → FetchResult) :
    Except FirmeApiError (Option JsonVal) :=
  match cleanCui cui with
  | .error e => .error e
  | .ok c => (request client ⟨"/v1/firma/" ++ c, false⟩ fetchEnv).map ErrorEnvelope.data

/-- `FirmeApi.getBilant`: normalize the CUI, then GET `/v1/bilant/{cui}`. -/
def getBilant (client : FirmeApi) (cui : String)
    (fetchEnv : String → List (String × String) → FetchResult) :
    Except FirmeApiError (Option JsonVal) :=
  match cleanCui cui with
  | .error e => .error e
  | .ok c => (request client ⟨"/v1/bilant/" ++ c, false⟩ fetchEnv).map ErrorEnvelope.data

/-- `FirmeApi.getRestante`: normalize the CUI, then GET `/v1/restante/{cui}`. -/
def getRestante (client : FirmeApi) (cui : String)
    (fetchEnv : String → List (String × String) → FetchResult) :
    Except FirmeApiError (Option JsonVal) :=
  match cleanCui cui with
  | .error e => .error e
  | .ok c => (request client ⟨"/v1/restante/" ++ c, false⟩ fetchEnv).map ErrorEnvelope.data

/-- `FirmeApi.getMof`: normalize the CUI, then GET `/v1/mof/{cui}`. -/
def getMof (client : FirmeApi) (cui : String)
    (fetchEnv : String → List (String × String) → FetchResult) :
    Except FirmeApiError (Option JsonVal) :=
  match cleanCui cui with
  | .error e => .error e
  | .ok c => (request client ⟨"/v1/mof/" ++ c, false⟩ fetchEnv).map ErrorEnvelope.data

/-- `FirmeApi.getFreeCompany`: normalize the CUI, then GET
`/free/firma/{cui}` on the free tier (`isFreeApi: true`). -/
def getFreeCompany (client : FirmeApi) (cui : String)
    (fetchEnv : String → List (String × String) → FetchResult) :
    Except FirmeApiError (Option JsonVal) :=
  match cleanCui cui with
  | .error e => .error e
  | .ok c => (request client ⟨"/free/firma/" ++ c, true⟩ fetchEnv).map ErrorEnvelope.data

/-- `FirmeApi.getFreeApiUsage`: GET `/free/usage` on the free tier. -/
def getFreeApiUsage (client : FirmeApi)
    (fetchEnv : String → List (String × String) → FetchResult) :
    Except FirmeApiError (Option JsonVal) :=
  (request client ⟨"/free/usage", true⟩ fetchEnv).map ErrorEnvelope.data

lemma cleanCui_of_invalid (cui : String)
    (h : (String.mk (cui.data.filter Char.isDigit)).length < 2 ∨
         (String.mk (cui.data.filter Char.isDigit)).length > 10) :
    cleanCui cui =
      .error (.validationError "CUI must contain between 2 and 10 digits" "INVALID_CUI_FORMAT") := by
  simp only [cleanCui]
  rw [if_pos h]

lemma cleanCui_of_valid (cui : String)
    (h : 2 ≤ (String.mk (cui.data.filter Char.isDigit)).length ∧
         (String.mk (cui.data.filter Char.isDigit)).length ≤ 10) :
    cleanCui cui = .ok (String.mk (cui.data.filter Char.isDigit)) := by
  simp only [cleanCui]
  rw [if_neg (by omega)]

/-- C2: every identifier-taking operation first strips non-digits from its
argument; when the digit count is outside 2..10 the operation fails with a
Validation failure carrying code INVALID_CUI_FORMAT no matter what the
transport would answer (the transport function is universally quantified,
so no network call can influence the result); otherwise the operation calls
the transport on the path built from the normalized digit string. -/
theorem c2_cui_normalization (cui : String) (client : FirmeApi)
    (fetchEnv : String → List (String × String) → FetchResult) :
    ((String.mk (cui.data.filter Char.isDigit)).length < 2 ∨
        (String.mk (cui.data.filter Char.isDigit)).length > 10 →
      getCompany client cui fetchEnv =
        .error (.validationError "CUI must contain between 2 and 10 digits" "INVALID_CUI_FORMAT") ∧
      getBilant client cui fetchEnv =
        .error (.validationError "CUI must contain between 2 and 10 digits" "INVALID_CUI_FORMAT") ∧
      getRestante client cui fetchEnv =
        .error (.validationError "CUI must contain between 2 and 10 digits" "INVALID_CUI_FORMAT") ∧
      getMof client cui fetchEnv =
        .error (.validationError "CUI must contain between 2 and 10 digits" "INVALID_CUI_FORMAT") ∧
      getFreeCompany client cui fetchEnv =
        .error (.validationError "CUI must contain between 2 and 10 digits" "INVALID_CUI_FORMAT")) ∧
    (2 ≤ (String.mk (cui.data.filter Char.isDigit)).length ∧
        (String.mk (cui.data.filter Char.isDigit)).length ≤ 10 →
      getCompany client cui fetchEnv =
        (request client ⟨"/v1/firma/" ++ String.mk (cui.data.filter Char.isDigit), false⟩ fetchEnv).map
          ErrorEnvelope.data ∧
      getBilant client cui fetchEnv =
        (request client ⟨"/v1/bilant/" ++ String.mk (cui.data.filter Char.isDigit), false⟩ fetchEnv).map
          ErrorEnvelope.data ∧
      getRestante client cui fetchEnv =
        (request client ⟨"/v1/restante/" ++ String.mk (cui.data.filter Char.isDigit), false⟩ fetchEnv).map
          ErrorEnvelope.data ∧
      getMof client cui fetchEnv =
        (request client ⟨"/v1/mof/" ++ String.mk (cui.data.filter Char.isDigit), false⟩ fetchEnv).map
          ErrorEnvelope.data ∧
      getFreeCompany client cui fetchEnv =
        (request client ⟨"/free/firma/" ++ String.mk (cui.data.filter Char.isDigit), true⟩ fetchEnv).map
          ErrorEnvelope.data) := by
  constructor
  · intro h
    have hc := cleanCui_of_invalid cui h
    refine ⟨?_, ?_, ?_, ?_, ?_⟩ <;>
      simp only [getCompany, getBilant, getRestante, getMof, getFreeCompany, hc]
  · intro h
    have hc := cleanCui_of_valid cui h
    refine ⟨?_, ?_, ?_, ?_, ?_⟩ <;>
      simp only [getCompany, getBilant, getRestante, getMof, getFreeCompany, hc]

/-- Witness for C2: the identifier "x" normalizes to zero digits, so
`getCompany` fails client-side with INVALID_CUI_FORMAT for an arbitrary
transport. -/
theorem c2_cui_normalization_witness :
    getCompany ⟨"k", false, DEFAULT_BASE_URL, DEFAULT_TIMEOUT⟩ "x" (fun _ _ => .rejected .nonError) =
      .error (.validationError "CUI must contain between 2 and 10 digits" "INVALID_CUI_FORMAT") :=
  ((c2_cui_normalization "x" ⟨"k", false, DEFAULT_BASE_URL, DEFAULT_TIMEOUT⟩
    (fun _ _ => .rejected .nonError)).1 (by decide)).1

/-- C3: constructing a client with an absent or empty credential fails with
a Validation failure carrying code MISSING_API_KEY regardless of the other
configuration fields; with a non-empty credential construction succeeds,
keeps the credential, and fills each unspecified field with its default
(sandbox false, the fixed base URL, 30000 ms). -/
theorem c3_client_construction (config : FirmeApiConfig) :
    ((config.apiKey = none ∨ config.apiKey = some "") →
      mkFirmeApi config = .error (.validationError "API key is required" "MISSING_API_KEY")) ∧
    (∀ key, config.apiKey = some key → key ≠ "" →
      mkFirmeApi config =
        .ok ⟨key, config.sandbox.getD false, config.baseUrl.getD DEFAULT_BASE_URL,
             config.timeout.getD DEFAULT_TIMEOUT⟩) ∧
    (∀ key c, config.apiKey = some key → key ≠ "" → mkFirmeApi config = .ok c →
      c.apiKey = key ∧
      (config.sandbox = none → c.sandbox = false) ∧
      (config.baseUrl = none → c.baseUrl = DEFAULT_BASE_URL) ∧
      (config.timeout = none → c.timeout = DEFAULT_TIMEOUT)) := by
  refine ⟨?_, ?_, ?_⟩
  · rintro (h | h) <;> simp [mkFirmeApi, h]
  · intro key hk hne
    simp [mkFirmeApi, hk, hne]
  · intro key c hk hne hok
    simp only [mkFirmeApi, hk] at hok
    rw [if_neg hne] at hok
    injection hok with h
    subst h
    refine ⟨rfl, ?_, ?_, ?_⟩ <;> intro hnone <;> simp [hnone]

/-- Witness for C3: a config carrying only the credential yields a client
with all three defaults. -/
theorem c3_client_construction_witness :
    mkFirmeApi ⟨some "key", none, none, none⟩ =
      .ok ⟨"key", false, DEFAULT_BASE_URL, DEFAULT_TIMEOUT⟩ :=
  (c3_client_construction ⟨some "key", none, none, none⟩).2.1 "key" rfl (by decide)

/-- C4: the X-Sandbox header is present iff sandbox mode is on and the call
is standard-tier; on a free-tier call no X-Sandbox header of any value is
ever present; and the content-type, accept, client-identification and
authentication headers are present on every call regardless of tier. -/
theorem c4_sandbox_header_rule (client : FirmeApi) (isFreeApi : Bool) :
    (("X-Sandbox", "true") ∈ buildHeaders client isFreeApi ↔
      client.sandbox = true ∧ isFreeApi = false) ∧
    (∀ v, ("X-Sandbox", v) ∉ buildHeaders client true) ∧
    ("Content-Type", "application/json") ∈ buildHeaders client isFreeApi ∧
    ("Accept", "application/json") ∈ buildHeaders client isFreeApi ∧
    ("User-Agent", "firmeapi-node/1.0.0") ∈ buildHeaders client isFreeApi ∧
    ("X-API-KEY", client.apiKey) ∈ buildHeaders client isFreeApi := by
  cases hs : client.sandbox <;> cases isFreeApi <;>
    simp [buildHeaders, hs]

/-- Witness for C4: with sandbox mode on, a standard-tier call carries the
X-Sandbox header. -/
theorem c4_sandbox_header_rule_witness :
    ("X-Sandbox", "true") ∈ buildHeaders ⟨"k", true, DEFAULT_BASE_URL, DEFAULT_TIMEOUT⟩ false :=
  (c4_sandbox_header_rule ⟨"k", true, DEFAULT_BASE_URL, DEFAULT_TIMEOUT⟩ false).1.mpr ⟨rfl, rfl⟩

/-- `SearchFilters` from `src/types.ts`: every filter is optional. -/
structure SearchFilters where
  q : Option String
  judet : Option String
  localitate : Option String
  caen : Option String
  stare : Option String
  data : Option String
  data_start : Option String
  data_end : Option String
  tva : Option Bool
  telefon : Option Bool
  page : Option Nat
deriving DecidableEq, Repr

/-- One `if (filters.x) params.set(k, filters.x)` step on a string filter:
JavaScript truthiness omits both an absent filter and a present empty
string. -/
def strParam (key : String) (v : Option String) : List (String × String) :=
  match v with
  | none => []
  | some s => if s = "" then [] else [(key, s)]

/-- One `if (filters.x !== undefined) params.set(k, filters.x ? '1' : '0')`
step on a boolean filter: any present boolean is emitted, serialized as the
literal characters 1 or 0. -/
def boolParam (key : String) (v : Option Bool) : List (String × String) :=
  match v with
  | none => []
  | some b => [(key, if b then "1" else "0")]

/-- `if (filters.page) params.set('page', String(filters.page))`: page 0 is
falsy and therefore omitted. -/
def pageParam (key : String) (v : Option Nat) : List (String × String) :=
  match v with
  | none => []
  | some n => if n = 0 then [] else [(key, toString n)]

/-- The ordered key/value pairs accumulated in the `URLSearchParams` by
`searchCompanies`, in the source's textual order of `set` calls. -/
def searchParams (filters : SearchFilters) : List (String × String) :=
  strParam "q" filters.q ++
  strParam "judet" filters.judet ++
  strParam "localitate" filters.localitate ++
  strParam "caen" filters.caen ++
  strParam "stare" filters.stare ++
  strParam "data" filters.data ++
  strParam "data_start" filters.data_start ++
  strParam "data_end" filters.data_end ++
  boolParam "tva" filters.tva ++
  boolParam "telefon" filters.telefon ++
  pageParam "page" filters.page

/-- Upper-case hexadecimal digit. -/
def hexDigit (n : Nat) : Char :=
  if n < 10 then Char.ofNat (48 + n) else Char.ofNat (55 + n)

/-- Percent-escape of one byte value. -/
def percentByte (b : Nat) : String :=
  String.mk ['%', hexDigit (b / 16), hexDigit (b % 16)]

/-- UTF-8 bytes of a Unicode code point. -/
def utf8Bytes (n : Nat) : List Nat :=
  if n < 128 then [n]
  else if n < 2048 then [192 + n / 64, 128 + n % 64]
  else if n < 65536 then [224 + n / 4096, 128 + (n / 64) % 64, 128 + n % 64]
  else [240 + n / 262144, 128 + (n / 4096) % 64, 128 + (n / 64) % 64, 128 + n % 64]

/-- Bytes the application/x-www-form-urlencoded serializer keeps verbatim:
ASCII alphanumerics and asterisk, hyphen, period, underscore. -/
def formSafeByte (b : Nat) : Bool :=
  (48 ≤ b && b ≤ 57) || (65 ≤ b && b ≤ 90) || (97 ≤ b && b ≤ 122) ||
    b = 42 || b = 45 || b = 46 || b = 95

/-- Serialize one byte: space becomes a plus sign, safe bytes stay, the rest
are percent-escaped. -/
def encodeByte (b : Nat) : String :=
  if b = 32 then "+"
  else if formSafeByte b then String.mk [Char.ofNat b]
  else percentByte b

/-- The form-urlencoded encoding of a string, as `URLSearchParams.toString`
applies to each key and value. -/
def urlencode (s : String) : String :=
  String.join (s.data.map fun c => String.join ((utf8Bytes c.toNat).map encodeByte))

/-- `URLSearchParams.toString`: ampersand-separated key=value pairs. -/
def serializeParams (ps : List (String × String)) : String :=
  String.intercalate "&" (ps.map fun p => urlencode p.1 ++ "=" ++ urlencode p.2)

/-- The URL built by `searchCompanies`: `/v1/firme` with the query string
appended after a question mark only when it is non-empty. -/
def searchCompaniesUrl (filters : SearchFilters) : String :=
  let queryString := serializeParams (searchParams filters)
  "/v1/firme" ++ (if queryString = "" then "" else "?" ++ queryString)

/-- `FirmeApi.searchCompanies`: build the query, issue a standard-tier
request, extract `response.data`. -/
def searchCompanies (client : FirmeApi) (filters : SearchFilters)
    (fetchEnv : String → List (String × String) → FetchResult) :
    Except FirmeApiError (Option JsonVal) :=
  (request client ⟨searchCompaniesUrl filters, false⟩ fetchEnv).map ErrorEnvelope.data

/-- The fixed key order of the query string. -/
def searchKeyOrder : List String :=
  ["q", "judet", "localitate", "caen", "stare", "data", "data_start", "data_end",
   "tva", "telefon", "page"]

/-- Whether the filter named by a query key is present in a filter set. -/
def filterPresent (filters : SearchFilters) : String → Bool
  | "q" => filters.q.isSome
  | "judet" => filters.judet.isSome
  | "localitate" => filters.localitate.isSome
  | "caen" => filters.caen.isSome
  | "stare" => filters.stare.isSome
  | "data" => filters.data.isSome
  | "data_start" => filters.data_start.isSome
  | "data_end" => filters.data_end.isSome
  | "tva" => filters.tva.isSome
  | "telefon" => filters.telefon.isSome
  | "page" => filters.page.isSome
  | _ => false

lemma strParam_fst_sublist (key : String) (v : Option String) :
    List.Sublist ((strParam key v).map Prod.fst) [key] := by
  cases v with
  | none => simp [strParam]
  | some s =>
    by_cases hs : s = "" <;> simp [strParam, hs]

lemma boolParam_fst_sublist (key : String) (v : Option Bool) :
    List.Sublist ((boolParam key v).map Prod.fst) [key] := by
  cases v <;> simp [boolParam]

lemma pageParam_fst_sublist (key : String) (v : Option Nat) :
    List.Sublist ((pageParam key v).map Prod.fst) [key] := by
  cases v with
  | none => simp [pageParam]
  | some n =>
    by_cases hn : n = 0 <;> simp [pageParam, hn]

lemma mem_strParam {key : String} {v : Option String} {p : String × String}
    (h : p ∈ strParam key v) : p.1 = key ∧ v.isSome = true := by
  cases v with
  | none => simp [strParam] at h
  | some s =>
    by_cases hs : s = ""
    · simp [strParam, hs] at h
    · simp [strParam, hs] at h
      exact ⟨by rw [h], rfl⟩

lemma mem_boolParam {key : String} {v : Option Bool} {p : String × String}
    (h : p ∈ boolParam key v) :
    p.1 = key ∧ v.isSome = true ∧ (p.2 = "1" ∨ p.2 = "0") := by
  cases v with
  | none => simp [boolParam] at h
  | some b =>
    simp [boolParam] at h
    cases b <;> simp_all

lemma mem_pageParam {key : String} {v : Option Nat} {p : String × String}
    (h : p ∈ pageParam key v) : p.1 = key ∧ v.isSome = true := by
  cases v with
  | none => simp [pageParam] at h
  | some n =>
    by_cases hn : n = 0
    · simp [pageParam, hn] at h
    · simp [pageParam, hn] at h
      exact ⟨by rw [h], rfl⟩

/-- C5: the emitted query pairs respect the fixed key order (their key list
is a sublist of q, judet, localitate, caen, stare, data, data_start,
data_end, tva, telefon, page), a pair is only emitted for a present filter,
boolean filters serialize to the literal characters 1/0, the empty filter
set yields the query-less path, and the filter set judet=B, tva=true,
page=2 yields exactly `/v1/firme?judet=B&tva=1&page=2`. -/
theorem c5_search_query_emission (filters : SearchFilters) :
    List.Sublist ((searchParams filters).map Prod.fst) searchKeyOrder ∧
    (∀ p : String × String, p ∈ searchParams filters → filterPresent filters p.1 = true) ∧
    (∀ p : String × String, p ∈ searchParams filters → (p.1 = "tva" ∨ p.1 = "telefon") →
      p.2 = "1" ∨ p.2 = "0") ∧
    searchCompaniesUrl ⟨none, none, none, none, none, none, none, none, none, none, none⟩ =
      "/v1/firme" ∧
    searchCompaniesUrl ⟨none, some "B", none, none, none, none, none, none, some true, none, some 2⟩ =
      "/v1/firme?judet=B&tva=1&page=2" := by
  refine ⟨?_, ?_, ?_, ?_, ?_⟩
  · simp only [searchParams, List.map_append]
    exact (((((((((((strParam_fst_sublist "q" filters.q).append
      (strParam_fst_sublist "judet" filters.judet)).append
      (strParam_fst_sublist "localitate" filters.localitate)).append
      (strParam_fst_sublist "caen" filters.caen)).append
      (strParam_fst_sublist "stare" filters.stare)).append
      (strParam_fst_sublist "data" filters.data)).append
      (strParam_fst_sublist "data_start" filters.data_start)).append
      (strParam_fst_sublist "data_end" filters.data_end)).append
      (boolParam_fst_sublist "tva" filters.tva)).append
      (boolParam_fst_sublist "telefon" filters.telefon)).append
      (pageParam_fst_sublist "page" filters.page))
  · intro p hp
    simp only [searchParams, List.mem_append] at hp
    rcases hp with ((((((((((h | h) | h) | h) | h) | h) | h) | h) | h) | h) | h)
    · obtain ⟨hk, hs⟩ := mem_strParam h
      rw [hk]; simp [filterPresent, hs]
    · obtain ⟨hk, hs⟩ := mem_strParam h
      rw [hk]; simp [filterPresent, hs]
    · obtain ⟨hk, hs⟩ := mem_strParam h
      rw [hk]; simp [filterPresent, hs]
    · obtain ⟨hk, hs⟩ := mem_strParam h
      rw [hk]; simp [filterPresent, hs]
    · obtain ⟨hk, hs⟩ := mem_strParam h
      rw [hk]; simp [filterPresent, hs]
    · obtain ⟨hk, hs⟩ := mem_strParam h
      rw [hk]; simp [filterPresent, hs]
    · obtain ⟨hk, hs⟩ := mem_strParam h
      rw [hk]; simp [filterPresent, hs]
    · obtain ⟨hk, hs⟩ := mem_strParam h
      rw [hk]; simp [filterPresent, hs]
    · obtain ⟨hk, hs, _⟩ := mem_boolParam h
      rw [hk]; simp [filterPresent, hs]
    · obtain ⟨hk, hs, _⟩ := mem_boolParam h
      rw [hk]; simp [filterPresent, hs]
    · obtain ⟨hk, hs⟩ := mem_pageParam h
      rw [hk]; simp [filterPresent, hs]
  · intro p hp hkey
    simp only [searchParams, List.mem_append] at hp
    rcases hp with ((((((((((h | h) | h) | h) | h) | h) | h) | h) | h) | h) | h)
    all_goals first
      | (obtain ⟨hk, -, hv⟩ := mem_boolParam h; exact hv)
      | (obtain ⟨hk, -⟩ := mem_strParam h
         rw [hk] at hkey
         rcases hkey with hkey | hkey <;> exact absurd hkey (by decide))
      | (obtain ⟨hk, -⟩ := mem_pageParam h
         rw [hk] at hkey
         rcases hkey with hkey | hkey <;> exact absurd hkey (by decide))
  · rfl
  · rfl

/-- Witness for C5: in the example filter set, the emitted pair
judet=B corresponds to a present filter. -/
theorem c5_search_query_emission_witness :
    filterPresent ⟨none, some "B", none, none, none, none, none, none, some true, none, some 2⟩
      "judet" = true :=
  (c5_search_query_emission
    ⟨none, some "B", none, none, none, none, none, none, some true, none, some 2⟩).2.1
    ("judet", "B") (by decide)

/-- C10: a present-but-empty string filter and a page filter equal to 0 are
omitted exactly as if absent (JavaScript truthiness), while the boolean
filters tva and telefon set to false are still emitted as the literal
character 0. -/
theorem c10_falsy_filter_omission (filters : SearchFilters) :
    searchParams { filters with q := some "" } = searchParams { filters with q := none } ∧
    searchParams { filters with judet := some "" } = searchParams { filters with judet := none } ∧
    searchParams { filters with localitate := some "" } =
      searchParams { filters with localitate := none } ∧
    searchParams { filters with caen := some "" } = searchParams { filters with caen := none } ∧
    searchParams { filters with stare := some "" } = searchParams { filters with stare := none } ∧
    searchParams { filters with data := some "" } = searchParams { filters with data := none } ∧
    searchParams { filters with data_start := some "" } =
      searchParams { filters with data_start := none } ∧
    searchParams { filters with data_end := some "" } =
      searchParams { filters with data_end := none } ∧
    searchParams { filters with page := some 0 } = searchParams { filters with page := none } ∧
    ("tva", "0") ∈ searchParams { filters with tva := some false } ∧
    ("telefon", "0") ∈ searchParams { filters with telefon := some false } := by
  refine ⟨rfl, rfl, rfl, rfl, rfl, rfl, rfl, rfl, rfl, ?_, ?_⟩
  · simp [searchParams, boolParam, List.mem_append]
  · simp [searchParams, boolParam, List.mem_append]

/-- Counterexample to C6 as stated: a present but non-numeric (string)
`available_credits` field is NOT replaced by the default 0 — nullish
coalescing passes it through into the failure unchanged. -/
theorem c6_nonnumeric_passthrough_counterexample :
    (handleErrorResponse 403
      (ErrorEnvelope.mk none none (some "CREDITS_EXHAUSTED") (some (.jstr "plenty"))
        none none none none none)).availableCreditsField = some (.jstr "plenty") ∧
    some (JsonVal.jstr "plenty") ≠ some (JsonVal.jnum 0) := by
  exact ⟨rfl, by decide⟩

/-- C6 amended: the extra numeric fields of the 403-credits and 429
failures are read from the snake_case envelope fields through nullish
coalescing, so the stated defaults (0, 1, 1, 0, 0) apply exactly when the
field is absent or null; any other present value — numeric or not — passes
through unchanged. -/
theorem c6_numeric_field_coalescing (data : ErrorEnvelope) :
    (resolvedCode data = "CREDITS_EXHAUSTED" ∨ resolvedCode data = "MOF_INSUFFICIENT_CREDITS" →
      (handleErrorResponse 403 data).availableCreditsField =
        some (coalesce data.available_credits (.jnum 0)) ∧
      (handleErrorResponse 403 data).requiredCreditsField =
        some (coalesce data.required_credits (.jnum 1))) ∧
    (handleErrorResponse 429 data).retryAfterField = some (coalesce data.retry_after (.jnum 1)) ∧
    (handleErrorResponse 429 data).currentUsageField =
      some (coalesce data.current_usage (.jnum 0)) ∧
    (handleErrorResponse 429 data).limitField = some (coalesce data.limit (.jnum 0)) ∧
    (∀ d, coalesce none d = d) ∧
    (∀ d, coalesce (some .jnull) d = d) ∧
    (∀ v d, v ≠ .jnull → coalesce (some v) d = v) := by
  refine ⟨?_, ?_, ?_, ?_, fun d => rfl, fun d => rfl, ?_⟩
  · intro hcode
    constructor <;>
      simp [handleErrorResponse, hcode, FirmeApiError.availableCreditsField,
        FirmeApiError.requiredCreditsField]
  · simp [handleErrorResponse, FirmeApiError.retryAfterField]
  · simp [handleErrorResponse, FirmeApiError.currentUsageField]
  · simp [handleErrorResponse, FirmeApiError.limitField]
  · intro v d hv
    cases v with
    | jnull => exact absurd rfl hv
    | jnum n => rfl
    | jstr s => rfl
    | jbool b => rfl

/-- Witness for C6 (amended): with the credits code and an absent
`available_credits` field, the failure exposes the coalesced default. -/
theorem c6_numeric_field_coalescing_witness :
    (handleErrorResponse 403
      (ErrorEnvelope.mk none none (some "CREDITS_EXHAUSTED")
        none none none none none none)).availableCreditsField =
      some (coalesce none (.jnum 0)) :=
  ((c6_numeric_field_coalescing
    (ErrorEnvelope.mk none none (some "CREDITS_EXHAUSTED") none none none none none none)).1
    (Or.inl (by decide))).1

/-- Counterexample to C7 as stated: with a present-but-empty `message`
field and a present-but-empty `code` field, the classified failure's
message is NOT the envelope's message (the empty string) — JavaScript `||`
falls through to the `error` field — and its code is NOT the envelope's
code but the UNKNOWN_ERROR default. -/
theorem c7_empty_string_fallback_counterexample :
    (handleErrorResponse 404
      (ErrorEnvelope.mk (some "") (some "boom") (some "")
        none none none none none none)).messageOf = "boom" ∧
    "boom" ≠ "" ∧
    (handleErrorResponse 404
      (ErrorEnvelope.mk (some "") (some "boom") (some "")
        none none none none none none)).codeOf = "UNKNOWN_ERROR" ∧
    "UNKNOWN_ERROR" ≠ "" := by
  exact ⟨rfl, by decide, rfl, by decide⟩

/-- C7 amended: every classified failure's message is the envelope's
message field, falling back to its error field and then to the literal
"Unknown error" when the earlier field is absent or the empty string (both
JavaScript-falsy); the machine code likewise defaults to UNKNOWN_ERROR when
the code field is absent or empty. -/
theorem c7_message_code_resolution (status : Nat) (data : ErrorEnvelope) :
    (handleErrorResponse status data).messageOf = resolvedMessage data ∧
    (handleErrorResponse status data).codeOf = resolvedCode data ∧
    resolvedMessage data = jsOr data.message (jsOr data.error "Unknown error") ∧
    resolvedCode data = jsOr data.code "UNKNOWN_ERROR" ∧
    (∀ d, jsOr none d = d) ∧
    (∀ d, jsOr (some "") d = d) ∧
    (∀ s d, s ≠ "" → jsOr (some s) d = s) := by
  refine ⟨?_, ?_, rfl, rfl, fun d => rfl, fun d => rfl, ?_⟩
  · unfold handleErrorResponse
    split_ifs <;> rfl
  · unfold handleErrorResponse
    split_ifs <;> rfl
  · intro s d hs
    simp [jsOr, hs]

/-- Witness for C7 (amended): a non-empty message field passes through the
fallback chain untouched. -/
theorem c7_message_code_resolution_witness :
    jsOr (some "hello") "fallback" = "hello" :=
  (c7_message_code_resolution 404
    (ErrorEnvelope.mk none none none none none none none none none)).2.2.2.2.2.2
    "hello" "fallback" (by decide)

/-- Counterexample to C8 as stated: a body that fails to parse is NOT
propagated as the parse step's own error — the catch clause classifies it
into the typed Network failure kind, keeping only its message; two parse
errors with different names are indistinguishable in the outcome. -/
theorem c8_parse_error_wrapped_counterexample :
    request ⟨"k", false, DEFAULT_BASE_URL, DEFAULT_TIMEOUT⟩ ⟨"/v1/firma/123", false⟩
      (fun _ _ => .response 200 (.error (.jsError "SyntaxError" "Unexpected token"))) =
      .error (.networkError "Unexpected token") ∧
    (FirmeApiError.networkError "Unexpected token").kind = .network ∧
    request ⟨"k", false, DEFAULT_BASE_URL, DEFAULT_TIMEOUT⟩ ⟨"/v1/firma/123", false⟩
      (fun _ _ => .response 200 (.error (.jsError "SyntaxError" "Unexpected token"))) =
      request ⟨"k", false, DEFAULT_BASE_URL, DEFAULT_TIMEOUT⟩ ⟨"/v1/firma/123", false⟩
        (fun _ _ => .response 200 (.error (.jsError "TypeError" "Unexpected token"))) := by
  exact ⟨rfl, rfl, rfl⟩

/-- C8 amended: whatever the HTTP status, a body that fails to parse makes
the call fail with a Network failure carrying the parse error's message
(or a Timeout failure when the parse step was aborted by the deadline, or
the generic Network failure for a thrown non-Error); the parse error itself
is re-wrapped by the catch clause, not propagated as-is. -/
theorem c8_parse_failure_classification (client : FirmeApi) (target : RequestTarget)
    (status : Nat) (name msg : String) :
    (name ≠ "AbortError" →
      request client target (fun _ _ => .response status (.error (.jsError name msg))) =
        .error (.networkError msg)) ∧
    request client target (fun _ _ => .response status (.error (.jsError "AbortError" msg))) =
      .error (.timeoutError ("Request timed out after " ++ toString client.timeout ++ "ms")) ∧
    request client target (fun _ _ => .response status (.error .nonError)) =
      .error (.networkError "An unknown error occurred") := by
  refine ⟨?_, ?_, ?_⟩
  · intro hname
    simp [request, requestTry, catchClause, hname]
  · simp [request, requestTry, catchClause]
  · simp [request, requestTry, catchClause]

/-- Witness for C8 (amended): a SyntaxError from the parse step surfaces as
a Network failure with the same message. -/
theorem c8_parse_failure_classification_witness :
    request ⟨"k", false, DEFAULT_BASE_URL, DEFAULT_TIMEOUT⟩ ⟨"/free/usage", true⟩
      (fun _ _ => .response 200 (.error (.jsError "SyntaxError" "bad json"))) =
      .error (.networkError "bad json") :=
  (c8_parse_failure_classification ⟨"k", false, DEFAULT_BASE_URL, DEFAULT_TIMEOUT⟩
    ⟨"/free/usage", true⟩ 200 "SyntaxError" "bad json").1 (by decide)

/-- C9: the catch clause rethrows an already-typed failure unchanged (never
re-wrapping it as Network or Api); in particular a non-ok exchange
surfaces exactly the classifier's typed failure.  An abort raised by the
deadline yields a Timeout failure, and any other transport error yields a
Network failure carrying the underlying message. -/
theorem c9_caught_error_propagation (client : FirmeApi) (target : RequestTarget)
    (timeout : Nat) :
    (∀ e, catchClause timeout (.typed e) = e) ∧
    (∀ msg, catchClause timeout (.js (.jsError "AbortError" msg)) =
      .timeoutError ("Request timed out after " ++ toString timeout ++ "ms")) ∧
    (∀ name msg, name ≠ "AbortError" →
      catchClause timeout (.js (.jsError name msg)) = .networkError msg) ∧
    (∀ status data, responseOk status = false →
      request client target (fun _ _ => .response status (.ok data)) =
        .error (handleErrorResponse status data)) ∧
    (∀ name msg, name ≠ "AbortError" →
      request client target (fun _ _ => .rejected (.jsError name msg)) =
        .error (.networkError msg)) ∧
    (∀ msg, request client target (fun _ _ => .rejected (.jsError "AbortError" msg)) =
      .error (.timeoutError ("Request timed out after " ++ toString client.timeout ++ "ms"))) := by
  refine ⟨fun e => rfl, fun msg => ?_, ?_, ?_, ?_, ?_⟩
  · simp [catchClause]
  · intro name msg h
    simp [catchClause, h]
  · intro status data h
    simp [request, requestTry, catchClause, h]
  · intro name msg h
    simp [request, catchClause, h]
  · intro msg
    simp [request, catchClause]

/-- Witness for C9: a Validation failure raised before any network
activity passes the catch clause untouched. -/
theorem c9_caught_error_propagation_witness :
    catchClause DEFAULT_TIMEOUT
      (.typed (.validationError "CUI must contain between 2 and 10 digits" "INVALID_CUI_FORMAT")) =
      .validationError "CUI must contain between 2 and 10 digits" "INVALID_CUI_FORMAT" :=
  (c9_caught_error_propagation ⟨"k", false, DEFAULT_BASE_URL, DEFAULT_TIMEOUT⟩
    ⟨"/v1/firme", false⟩ DEFAULT_TIMEOUT).1
    (.validationError "CUI must contain between 2 and 10 digits" "INVALID_CUI_FORMAT")
